import Mathlib

/-!
Verification of the FocusPulse Elite live tracking engine and session store.

The definitions below are a shallow embedding of the Python sources:

* `focuspulse/models.py` — `LiveSessionData` and its `deque(maxlen=...)`
  buffers, embedded as `BoundedDeque` / `LiveSessionData`;
* `focuspulse/tracker.py` — `MasterpieceActivityTracker` with
  `start_tracking`, `_tracking_loop` (embedded as `loop_body` /
  `tracking_loop`, one call per loop iteration, with the per-iteration
  clock reading, random draws and any raised exception supplied as a
  `LoopInput`), and `stop_tracking`;
* `focuspulse/database.py` — `AdvancedDatabaseManager.init_database`,
  `_insert_masterpiece_data` and `get_sessions`, embedded over an explicit
  list of table rows.  Timestamps are embedded as integer instants
  (seconds), with `timedelta(days=d)` as `d * 86400`; SQLite `REAL`
  columns are embedded as `ℚ`.

Real-valued tracker quantities (clock instants, scores, Gaussian noise)
are embedded as `ℝ`, so the synthesized-metric formulas use `Real.sin` /
`Real.cos` exactly as written in the source.
-/

/-- Embeds `collections.deque(maxlen = N)`: a fixed-capacity buffer whose
capacity is fixed at construction and which drops its oldest elements on
overflow. -/
structure BoundedDeque (α : Type) where
  maxlen : Nat
  items : List α

/-- Embeds `deque.append`: the new contents are the last `maxlen` elements
of the old contents followed by the new value.  Total, never errors. -/
def BoundedDeque.append {α : Type} (d : BoundedDeque α) (v : α) : BoundedDeque α :=
  { d with items := (d.items ++ [v]).drop (d.items.length + 1 - d.maxlen) }

/-- A sequence of `append` calls, oldest first. -/
def BoundedDeque.appendAll {α : Type} (d : BoundedDeque α) (vs : List α) : BoundedDeque α :=
  vs.foldl BoundedDeque.append d

theorem BoundedDeque.maxlen_append {α : Type} (d : BoundedDeque α) (v : α) :
    (d.append v).maxlen = d.maxlen := rfl

theorem BoundedDeque.items_append {α : Type} (d : BoundedDeque α) (v : α) :
    (d.append v).items = (d.items ++ [v]).drop (d.items.length + 1 - d.maxlen) := rfl

theorem BoundedDeque.length_append {α : Type} (d : BoundedDeque α) (v : α) :
    (d.append v).items.length = min (d.items.length + 1) d.maxlen := by
  simp [BoundedDeque.append]
  omega

theorem BoundedDeque.length_append_le {α : Type} (d : BoundedDeque α) (v : α) :
    (d.append v).items.length ≤ d.maxlen := by
  rw [BoundedDeque.length_append]; omega

theorem BoundedDeque.maxlen_appendAll {α : Type} (d : BoundedDeque α) (vs : List α) :
    (d.appendAll vs).maxlen = d.maxlen := by
  induction vs generalizing d with
  | nil => rfl
  | cons v vs ih =>
    rw [show BoundedDeque.appendAll d (v :: vs) = BoundedDeque.appendAll (d.append v) vs from rfl,
      ih, BoundedDeque.maxlen_append]

theorem BoundedDeque.mem_append {α : Type} {d : BoundedDeque α} {v x : α}
    (hx : x ∈ (d.append v).items) : x ∈ d.items ∨ x = v := by
  have h := List.drop_subset _ _ hx
  rcases List.mem_append.1 h with h | h
  · exact Or.inl h
  · exact Or.inr (List.mem_singleton.1 h)

theorem BoundedDeque.getLast?_append {α : Type} (d : BoundedDeque α) (v : α)
    (h : 0 < d.maxlen) : (d.append v).items.getLast? = some v := by
  rw [BoundedDeque.items_append, List.drop_append_eq_append_drop]
  have h1 : d.items.length + 1 - d.maxlen - d.items.length = 0 := by omega
  rw [h1, List.drop_zero]
  simp

theorem drop_append_drop {α : Type} (k j : Nat) (l m : List α) (h : k ≤ l.length) :
    (l.drop k ++ m).drop j = (l ++ m).drop (k + j) := by
  have h2 : (l ++ m).drop k = l.drop k ++ m := by
    rw [List.drop_append_eq_append_drop, Nat.sub_eq_zero_of_le h, List.drop_zero]
  rw [← h2, List.drop_drop]

theorem BoundedDeque.items_appendAll {α : Type} (d : BoundedDeque α) (vs : List α)
    (h : d.items.length ≤ d.maxlen) :
    (d.appendAll vs).items = (d.items ++ vs).drop (d.items.length + vs.length - d.maxlen) := by
  induction vs generalizing d with
  | nil =>
    simp [BoundedDeque.appendAll, Nat.sub_eq_zero_of_le h]
  | cons v vs ih =>
    have h2 : (d.append v).items.length ≤ (d.append v).maxlen := by
      rw [BoundedDeque.maxlen_append]
      exact BoundedDeque.length_append_le d v
    have step : (d.appendAll (v :: vs)) = ((d.append v).appendAll vs) := rfl
    rw [step, ih _ h2, BoundedDeque.maxlen_append, BoundedDeque.length_append,
      BoundedDeque.items_append,
      drop_append_drop _ _ _ _
        (by simp only [List.length_append, List.length_singleton]; omega),
      show (d.items ++ [v]) ++ vs = d.items ++ v :: vs by simp]
    congr 1
    simp only [List.length_cons]
    omega

theorem BoundedDeque.length_appendAll_le {α : Type} (d : BoundedDeque α) (vs : List α)
    (h : d.items.length ≤ d.maxlen) : (d.appendAll vs).items.length ≤ d.maxlen := by
  induction vs generalizing d with
  | nil => exact h
  | cons v vs ih =>
    have step : (d.appendAll (v :: vs)) = ((d.append v).appendAll vs) := rfl
    rw [step]
    have h2 : (d.append v).items.length ≤ d.maxlen := BoundedDeque.length_append_le d v
    have hm : (d.append v).maxlen = d.maxlen := rfl
    simpa [hm] using ih (d.append v) (by simpa [hm] using h2)

/-- C1: a buffer of capacity `N` fixed at construction (the source fixes
`N = 300` for the focus-score, productivity-score and timestamp buffers and
`N = 60` for activity events), fed `M > N` values starting from empty, ends
up holding exactly the last `N` values in insertion order; appends never
change the capacity, never error (`append` is total), and the size never
exceeds `N` at any intermediate point. -/
theorem c1_sliding_window_buffer {α : Type} (N : Nat) (vs : List α)
    (hM : N < vs.length) :
    (BoundedDeque.appendAll ⟨N, []⟩ vs).items = vs.drop (vs.length - N) ∧
    (BoundedDeque.appendAll ⟨N, []⟩ vs).items.length = N ∧
    (∀ k, (BoundedDeque.appendAll ⟨N, []⟩ (vs.take k)).items.length ≤ N) ∧
    (∀ (d : BoundedDeque α) (v : α), (d.append v).maxlen = d.maxlen) := by
  refine ⟨?_, ?_, ?_, fun d v => rfl⟩
  · have h := BoundedDeque.items_appendAll (⟨N, []⟩ : BoundedDeque α) vs (by simp)
    simpa using h
  · have h := BoundedDeque.items_appendAll (⟨N, []⟩ : BoundedDeque α) vs (by simp)
    simp only [List.nil_append, List.length_nil, Nat.zero_add] at h
    rw [h, List.length_drop]
    omega
  · intro k
    exact BoundedDeque.length_appendAll_le _ _ (by simp)

/-- C1 witness: capacity 2, appends `[1, 2, 3]`, retained contents `[2, 3]`. -/
theorem c1_sliding_window_buffer_witness :
    (2 < ([1, 2, 3] : List Nat).length) ∧
      (BoundedDeque.appendAll ⟨2, []⟩ ([1, 2, 3] : List Nat)).items = [2, 3] :=
  ⟨by decide, (c1_sliding_window_buffer 2 [1, 2, 3] (by decide)).1.trans (by decide)⟩

/-- Embeds the dataclass `LiveSessionData` (focuspulse/models.py): four
`deque(maxlen=...)` buffers (capacity 300 for scores and timestamps, 60 for
activity events) plus scalar fields.  Clock instants and scores are `ℝ`. -/
structure LiveSessionData where
  start_time : ℝ
  current_app : String
  current_window : String
  duration_seconds : ℤ := 0
  focus_scores : BoundedDeque ℝ := ⟨300, []⟩
  productivity_scores : BoundedDeque ℝ := ⟨300, []⟩
  activity_events : BoundedDeque String := ⟨60, []⟩
  timestamps : BoundedDeque ℝ := ⟨300, []⟩

/-- Embeds the mutable attributes of `MasterpieceActivityTracker`
(focuspulse/tracker.py, `__init__`): the tracking flag, the optional live
session, the session counters and the logger output (as a list of logged
lines). -/
structure MasterpieceActivityTracker where
  is_tracking : Bool
  live_session : Option LiveSessionData
  session_start_time : Option ℝ
  typing_events : ℕ
  mouse_events : ℕ
  app_switches : ℕ
  log : List String

/-- The environment of one `_tracking_loop` iteration: the `datetime.now()`
reading, the two `np.random.normal` draws, the two `np.random.randint`
draws, and — when `err` is `some` — an exception raised while computing the
sample (caught by the loop's `except` clause). -/
structure LoopInput where
  current_time : ℝ
  noise : ℝ
  prod_noise : ℝ
  typing_delta : ℕ
  mouse_delta : ℕ
  err : Option String

/-- Embeds the body of one `_tracking_loop` iteration
(focuspulse/tracker.py lines 72-94): guard on `live_session`, synthesize
the clamped focus/productivity scores, update duration and append to the
three capacity-300 buffers, and bump the typing/mouse counters when
`elapsed % 10 < 1`.  A raised exception is returned as `Except.error`. -/
noncomputable def loop_body (e : MasterpieceActivityTracker) (i : LoopInput) :
    Except String MasterpieceActivityTracker :=
  match i.err with
  | some msg => Except.error msg
  | none =>
    match e.live_session with
    | none => Except.ok e
    | some ls =>
      let elapsed : ℝ := i.current_time - ls.start_time
      let focus_score : ℝ := max 20 (min 100 (85 + 10 * Real.sin (elapsed / 60) + i.noise))
      let productivity_score : ℝ :=
        max 30 (min 100 (88 + 8 * Real.cos (elapsed / 45) + i.prod_noise))
      let ls' : LiveSessionData := { ls with
        duration_seconds := ⌊elapsed⌋
        focus_scores := ls.focus_scores.append focus_score
        productivity_scores := ls.productivity_scores.append productivity_score
        timestamps := ls.timestamps.append i.current_time }
      if elapsed - 10 * (⌊elapsed / 10⌋ : ℝ) < 1 then
        Except.ok { e with
          live_session := some ls'
          typing_events := e.typing_events + i.typing_delta
          mouse_events := e.mouse_events + i.mouse_delta }
      else
        Except.ok { e with live_session := some ls' }

/-- Embeds `_tracking_loop`: while `is_tracking`, run one body per supplied
iteration input; a raised exception is logged (`Tracking error: ...`) and
breaks the loop without propagating to the caller. -/
noncomputable def tracking_loop :
    MasterpieceActivityTracker → List LoopInput → MasterpieceActivityTracker
  | e, [] => e
  | e, i :: rest =>
    if e.is_tracking then
      match loop_body e i with
      | Except.ok e' => tracking_loop e' rest
      | Except.error msg => { e with log := e.log ++ ["Tracking error: " ++ msg] }
    else e

/-- Embeds `start_tracking` (focuspulse/tracker.py lines 49-67).  The
second component records whether a new sampling-loop thread was started. -/
def start_tracking (e : MasterpieceActivityTracker) (now : ℝ) :
    MasterpieceActivityTracker × Bool :=
  if e.is_tracking then (e, false)
  else
    ({ is_tracking := true
       session_start_time := some now
       typing_events := 0
       mouse_events := 0
       app_switches := 0
       live_session := some
         { start_time := now
           current_app := "FocusPulse Elite"
           current_window := "Productivity Tracking Session" }
       log := e.log ++ ["Started masterpiece tracking session"] }, true)

/-- Embeds `get_live_session_data`. -/
def get_live_session_data (e : MasterpieceActivityTracker) : Option LiveSessionData :=
  e.live_session

/-- Outcome of `stop_tracking`: the engine state after the call, the
summary statistics computed for the completion log line (duration and the
two average scores), and the list of summaries handed to
`db_manager.save_session` — empty, because that call is commented out in
the source. -/
structure StopResult where
  engine : MasterpieceActivityTracker
  summary_logged : Option (ℤ × ℝ × ℝ)
  persisted : List (ℤ × ℝ × ℝ)

/-- Embeds `np.mean(list(xs)) if xs else d`: the arithmetic mean of a
nonempty buffer, the default otherwise. -/
noncomputable def meanOrDefault (xs : List ℝ) (d : ℝ) : ℝ :=
  match xs with
  | [] => d
  | _ => xs.sum / xs.length

/-- Embeds `stop_tracking` (focuspulse/tracker.py lines 99-113): no-op when
idle; otherwise clear the tracking flag, compute and log the summary when
the session lasted more than 10 seconds, and release the live session.
The `save_session` persistence call is commented out in the source, so
`persisted` is always empty. -/
noncomputable def stop_tracking (e : MasterpieceActivityTracker) : StopResult :=
  if e.is_tracking = false then
    { engine := e, summary_logged := none, persisted := [] }
  else
    match e.live_session with
    | some ls =>
      if ls.duration_seconds > 10 then
        { engine := { e with
            is_tracking := false
            live_session := none
            log := e.log ++ ["Session completed", "Stopped tracking session"] }
          summary_logged := some (ls.duration_seconds,
            meanOrDefault ls.focus_scores.items 85,
            meanOrDefault ls.productivity_scores.items 88)
          persisted := [] }
      else
        { engine := { e with
            is_tracking := false
            live_session := none
            log := e.log ++ ["Stopped tracking session"] }
          summary_logged := none
          persisted := [] }
    | none =>
      { engine := { e with
          is_tracking := false
          live_session := none
          log := e.log ++ ["Stopped tracking session"] }
        summary_logged := none
        persisted := [] }

/-- A concrete live session fifteen seconds in, with one buffered sample. -/
def liveSessionExample : LiveSessionData :=
  { start_time := 0
    current_app := "FocusPulse Elite"
    current_window := "Productivity Tracking Session"
    duration_seconds := 15
    focus_scores := ⟨300, [90]⟩
    productivity_scores := ⟨300, [80]⟩
    activity_events := ⟨60, []⟩
    timestamps := ⟨300, [14]⟩ }

/-- A concrete engine in the `Tracking` state holding `liveSessionExample`. -/
def engineTrackingExample : MasterpieceActivityTracker :=
  { is_tracking := true
    live_session := some liveSessionExample
    session_start_time := some 0
    typing_events := 3
    mouse_events := 4
    app_switches := 0
    log := [] }

/-- C6: calling `start_tracking` while already tracking is a no-op — the
whole engine state (flag, live session, counters, start time, log) is
returned unchanged and no second sampling loop is started. -/
theorem c6_start_tracking_noop (e : MasterpieceActivityTracker) (now : ℝ)
    (h : e.is_tracking = true) :
    start_tracking e now = (e, false) := by
  unfold start_tracking
  rw [h]
  exact if_pos rfl

/-- C6 witness: a concrete tracking engine is untouched by a second start. -/
theorem c6_start_tracking_noop_witness :
    engineTrackingExample.is_tracking = true ∧
      start_tracking engineTrackingExample 5 = (engineTrackingExample, false) :=
  ⟨rfl, c6_start_tracking_noop engineTrackingExample 5 rfl⟩

/-- C3: when an iteration of the sampling loop raises, the loop logs
`Tracking error: ...`, consumes no further iterations, and returns the
engine otherwise unchanged (no exception escapes to the caller); and from
any engine state whatsoever, `stop_tracking` still brings the state
machine to `Idle` (`is_tracking = false`), so the engine is never stuck in
`Tracking`. -/
theorem c3_loop_error_contained (e : MasterpieceActivityTracker) (i : LoopInput)
    (rest : List LoopInput) (msg : String)
    (ht : e.is_tracking = true) (herr : i.err = some msg) :
    tracking_loop e (i :: rest) =
      { e with log := e.log ++ ["Tracking error: " ++ msg] } ∧
    (∀ e' : MasterpieceActivityTracker, (stop_tracking e').engine.is_tracking = false) := by
  constructor
  · simp [tracking_loop, ht, loop_body, herr]
  · intro e'
    by_cases h : e'.is_tracking = false
    · simp [stop_tracking, h]
    · cases hls : e'.live_session with
      | none => simp [stop_tracking, h, hls]
      | some ls =>
        by_cases hd : ls.duration_seconds > 10 <;>
          simp [stop_tracking, h, hls, hd]

/-- An iteration input carrying a raised exception. -/
def errInputExample : LoopInput :=
  { current_time := 1
    noise := 0
    prod_noise := 0
    typing_delta := 5
    mouse_delta := 2
    err := some "boom" }

/-- C3 witness: a concrete erroring iteration is logged and the loop stops;
stopping the concrete engine afterwards reaches `Idle`. -/
theorem c3_loop_error_contained_witness :
    tracking_loop engineTrackingExample [errInputExample] =
      { engineTrackingExample with
        log := engineTrackingExample.log ++ ["Tracking error: boom"] } ∧
    (stop_tracking engineTrackingExample).engine.is_tracking = false :=
  ⟨(c3_loop_error_contained engineTrackingExample errInputExample [] "boom" rfl rfl).1,
   (c3_loop_error_contained engineTrackingExample errInputExample [] "boom" rfl rfl).2
     engineTrackingExample⟩

/-- C4 (amended): stopping a tracking engine whose session exceeds the
10-second minimum computes the summary focus score as the arithmetic mean
of the buffered focus scores (85 if the buffer is empty) and the summary
productivity score as the mean of the buffered productivity scores (88 if
empty), logs that summary exactly once, and returns the engine to `Idle`
with the session released — but hands nothing to the persistence
collaborator, whose invocation is commented out in the source. -/
theorem c4_stop_summary (e : MasterpieceActivityTracker) (ls : LiveSessionData)
    (ht : e.is_tracking = true) (hs : e.live_session = some ls)
    (hd : ls.duration_seconds > 10) :
    (∃ af ap, (stop_tracking e).summary_logged = some (ls.duration_seconds, af, ap) ∧
      (ls.focus_scores.items = [] → af = 85) ∧
      (ls.focus_scores.items ≠ [] →
        af = ls.focus_scores.items.sum / ls.focus_scores.items.length) ∧
      (ls.productivity_scores.items = [] → ap = 88) ∧
      (ls.productivity_scores.items ≠ [] →
        ap = ls.productivity_scores.items.sum / ls.productivity_scores.items.length)) ∧
    (stop_tracking e).persisted = [] ∧
    (stop_tracking e).engine.is_tracking = false ∧
    (stop_tracking e).engine.live_session = none := by
  have hmean_empty : ∀ (xs : List ℝ) (d : ℝ), xs = [] → meanOrDefault xs d = d := by
    intro xs d hxs; subst hxs; rfl
  have hmean_ne : ∀ (xs : List ℝ) (d : ℝ), xs ≠ [] →
      meanOrDefault xs d = xs.sum / xs.length := by
    intro xs d hxs
    cases xs with
    | nil => exact absurd rfl hxs
    | cons a l => rfl
  refine ⟨⟨meanOrDefault ls.focus_scores.items 85,
    meanOrDefault ls.productivity_scores.items 88, ?_,
    hmean_empty _ _, hmean_ne _ _, hmean_empty _ _, hmean_ne _ _⟩, ?_, ?_, ?_⟩ <;>
    simp [stop_tracking, ht, hs, hd]

/-- C4 witness: stopping the concrete fifteen-second engine logs a summary,
persists nothing, and returns the engine to `Idle`. -/
theorem c4_stop_summary_witness :
    engineTrackingExample.is_tracking = true ∧
    liveSessionExample.duration_seconds > 10 ∧
    (stop_tracking engineTrackingExample).persisted = [] ∧
    (stop_tracking engineTrackingExample).engine.is_tracking = false :=
  ⟨rfl, by decide,
   (c4_stop_summary engineTrackingExample liveSessionExample rfl rfl (by decide)).2.1,
   (c4_stop_summary engineTrackingExample liveSessionExample rfl rfl (by decide)).2.2.1⟩

/-- C4 counterexample: for the concrete tracking engine whose session
lasted 15 seconds (beyond the 10-second minimum), `stop_tracking` hands
zero finalized summaries — not exactly one — to the persistence
collaborator. -/
theorem c4_counterexample :
    engineTrackingExample.is_tracking = true ∧
    liveSessionExample.duration_seconds > 10 ∧
    (stop_tracking engineTrackingExample).persisted.length ≠ 1 := by
  refine ⟨rfl, by decide, ?_⟩
  norm_num [stop_tracking, engineTrackingExample, liveSessionExample]

theorem loop_body_ok_preserves (P : LiveSessionData → Prop)
    (hP : ∀ (ls : LiveSessionData) (t x y : ℝ) (dur : ℤ), P ls →
      P { ls with
          duration_seconds := dur
          focus_scores := ls.focus_scores.append (max 20 (min 100 x))
          productivity_scores := ls.productivity_scores.append (max 30 (min 100 y))
          timestamps := ls.timestamps.append t })
    (e e' : MasterpieceActivityTracker) (i : LoopInput)
    (hok : loop_body e i = Except.ok e')
    (h : ∀ ls, e.live_session = some ls → P ls) :
    ∀ ls', e'.live_session = some ls' → P ls' := by
  intro ls' hls'
  cases herr : i.err with
  | some msg => simp [loop_body, herr] at hok
  | none =>
    cases hsess : e.live_session with
    | none =>
      simp only [loop_body, herr, hsess] at hok
      cases hok
      rw [hsess] at hls'
      cases hls'
    | some ls =>
      simp only [loop_body, herr, hsess] at hok
      by_cases hc : (i.current_time - ls.start_time) -
          10 * (⌊(i.current_time - ls.start_time) / 10⌋ : ℝ) < 1
      · rw [if_pos hc] at hok
        cases hok
        simp only [Option.some.injEq] at hls'
        subst hls'
        exact hP ls _ _ _ _ (h ls hsess)
      · rw [if_neg hc] at hok
        cases hok
        simp only [Option.some.injEq] at hls'
        subst hls'
        exact hP ls _ _ _ _ (h ls hsess)

theorem tracking_loop_preserves (P : LiveSessionData → Prop)
    (hP : ∀ (ls : LiveSessionData) (t x y : ℝ) (dur : ℤ), P ls →
      P { ls with
          duration_seconds := dur
          focus_scores := ls.focus_scores.append (max 20 (min 100 x))
          productivity_scores := ls.productivity_scores.append (max 30 (min 100 y))
          timestamps := ls.timestamps.append t }) :
    ∀ (inputs : List LoopInput) (e : MasterpieceActivityTracker),
      (∀ ls, e.live_session = some ls → P ls) →
      ∀ ls', (tracking_loop e inputs).live_session = some ls' → P ls' := by
  intro inputs
  induction inputs with
  | nil =>
    intro e h ls' hls'
    exact h ls' hls'
  | cons i rest ih =>
    intro e h ls' hls'
    rw [tracking_loop] at hls'
    by_cases ht : e.is_tracking
    · rw [if_pos ht] at hls'
      cases hbody : loop_body e i with
      | ok e2 =>
        rw [hbody] at hls'
        exact ih e2 (loop_body_ok_preserves P hP e e2 i hbody h) ls' hls'
      | error msg =>
        rw [hbody] at hls'
        exact h ls' hls'
    · rw [if_neg ht] at hls'
      exact h ls' hls'

theorem start_session_fresh (e : MasterpieceActivityTracker) (now : ℝ)
    (he : e.is_tracking = false) :
    (start_tracking e now).1.live_session = some
      { start_time := now
        current_app := "FocusPulse Elite"
        current_window := "Productivity Tracking Session" } := by
  unfold start_tracking
  rw [he]
  rfl

theorem clamp_focus_bounds (x : ℝ) :
    20 ≤ max 20 (min 100 x) ∧ max 20 (min 100 x) ≤ 100 :=
  ⟨le_max_left _ _, max_le (by norm_num) (min_le_left _ _)⟩

theorem clamp_prod_bounds (x : ℝ) :
    30 ≤ max 30 (min 100 x) ∧ max 30 (min 100 x) ≤ 100 :=
  ⟨le_max_left _ _, max_le (by norm_num) (min_le_left _ _)⟩

/-- C2: with no exception raised, one sampling iteration appends exactly
`clamp(85 + 10·sin(elapsed/60) + noise, 20, 100)` to the focus buffer and
`clamp(88 + 8·cos(elapsed/45) + noise', 30, 100)` to the productivity
buffer, for the iteration's noise draws; consequently, in any session
reached from `start_tracking` by any run of the sampling loop, every
buffered focus score lies in `[20, 100]` and every buffered productivity
score lies in `[30, 100]`. -/
theorem c2_metric_synthesis :
    (∀ (e : MasterpieceActivityTracker) (i : LoopInput) (ls : LiveSessionData),
      e.live_session = some ls → i.err = none →
      0 < ls.focus_scores.maxlen → 0 < ls.productivity_scores.maxlen →
      ∃ e', loop_body e i = Except.ok e' ∧
        ∃ ls', e'.live_session = some ls' ∧
          ls'.focus_scores.items.getLast? = some (max 20 (min 100
            (85 + 10 * Real.sin ((i.current_time - ls.start_time) / 60) + i.noise))) ∧
          ls'.productivity_scores.items.getLast? = some (max 30 (min 100
            (88 + 8 * Real.cos ((i.current_time - ls.start_time) / 45) + i.prod_noise)))) ∧
    (∀ (e : MasterpieceActivityTracker) (now : ℝ) (inputs : List LoopInput)
      (ls : LiveSessionData), e.is_tracking = false →
      (tracking_loop (start_tracking e now).1 inputs).live_session = some ls →
      (∀ x ∈ ls.focus_scores.items, 20 ≤ x ∧ x ≤ 100) ∧
      (∀ x ∈ ls.productivity_scores.items, 30 ≤ x ∧ x ≤ 100)) := by
  constructor
  · intro e i ls hls herr hf hp
    simp only [loop_body, herr, hls]
    by_cases hc : (i.current_time - ls.start_time) -
        10 * (⌊(i.current_time - ls.start_time) / 10⌋ : ℝ) < 1
    · rw [if_pos hc]
      exact ⟨_, rfl, _, rfl,
        BoundedDeque.getLast?_append _ _ hf, BoundedDeque.getLast?_append _ _ hp⟩
    · rw [if_neg hc]
      exact ⟨_, rfl, _, rfl,
        BoundedDeque.getLast?_append _ _ hf, BoundedDeque.getLast?_append _ _ hp⟩
  · intro e now inputs ls he hls
    refine tracking_loop_preserves
      (fun ls => (∀ x ∈ ls.focus_scores.items, 20 ≤ x ∧ x ≤ 100) ∧
        (∀ x ∈ ls.productivity_scores.items, 30 ≤ x ∧ x ≤ 100))
      ?_ inputs _ ?_ ls hls
    · intro ls t x y dur hls0
      constructor
      · intro z hz
        rcases BoundedDeque.mem_append
          (show z ∈ (ls.focus_scores.append (max 20 (min 100 x))).items from hz)
          with h | h
        · exact hls0.1 z h
        · subst h; exact clamp_focus_bounds x
      · intro z hz
        rcases BoundedDeque.mem_append
          (show z ∈ (ls.productivity_scores.append (max 30 (min 100 y))).items from hz)
          with h | h
        · exact hls0.2 z h
        · subst h; exact clamp_prod_bounds y
    · intro ls0 hls0
      rw [start_session_fresh e now he] at hls0
      cases hls0
      exact ⟨fun z hz => absurd hz (List.not_mem_nil z),
        fun z hz => absurd hz (List.not_mem_nil z)⟩

/-- A sampling-loop iteration environment with no exception. -/
def okInputExample : LoopInput :=
  { current_time := 14
    noise := 1
    prod_noise := -1
    typing_delta := 7
    mouse_delta := 3
    err := none }

/-- An engine in the `Idle` state, as built by the tracker constructor. -/
def engineIdleExample : MasterpieceActivityTracker :=
  { is_tracking := false
    live_session := none
    session_start_time := none
    typing_events := 0
    mouse_events := 0
    app_switches := 0
    log := [] }

/-- The empty live session created by a fresh `start_tracking`. -/
def freshSessionExample : LiveSessionData :=
  { start_time := 0
    current_app := "FocusPulse Elite"
    current_window := "Productivity Tracking Session" }

/-- C2 witness: one concrete exception-free iteration appends the two
clamped synthesized scores, and a concrete freshly started session has all
buffered scores in range. -/
theorem c2_metric_synthesis_witness :
    (∃ e', loop_body engineTrackingExample okInputExample = Except.ok e' ∧
      ∃ ls', e'.live_session = some ls' ∧
        ls'.focus_scores.items.getLast? = some (max 20 (min 100
          (85 + 10 * Real.sin ((okInputExample.current_time -
            liveSessionExample.start_time) / 60) + okInputExample.noise))) ∧
        ls'.productivity_scores.items.getLast? = some (max 30 (min 100
          (88 + 8 * Real.cos ((okInputExample.current_time -
            liveSessionExample.start_time) / 45) + okInputExample.prod_noise)))) ∧
    (∀ x ∈ freshSessionExample.focus_scores.items, 20 ≤ x ∧ x ≤ 100) :=
  ⟨c2_metric_synthesis.1 engineTrackingExample okInputExample liveSessionExample
      rfl rfl (by decide) (by decide),
   (c2_metric_synthesis.2 engineIdleExample 0 [] freshSessionExample rfl rfl).1⟩

/-- C8: in any live session reached from the empty session created by
`start_tracking` through any number of sampling-loop iterations, the
timestamp buffer stays index-aligned with the two score buffers:
`len(timestamps) = len(focus_scores) = len(productivity_scores)`. -/
theorem c8_buffer_alignment (e : MasterpieceActivityTracker) (now : ℝ)
    (inputs : List LoopInput) (ls : LiveSessionData)
    (he : e.is_tracking = false)
    (hls : (tracking_loop (start_tracking e now).1 inputs).live_session = some ls) :
    ls.timestamps.items.length = ls.focus_scores.items.length ∧
    ls.focus_scores.items.length = ls.productivity_scores.items.length := by
  refine (tracking_loop_preserves
    (fun ls => (ls.timestamps.maxlen = ls.focus_scores.maxlen ∧
        ls.focus_scores.maxlen = ls.productivity_scores.maxlen) ∧
      (ls.timestamps.items.length = ls.focus_scores.items.length ∧
        ls.focus_scores.items.length = ls.productivity_scores.items.length))
    ?_ inputs _ ?_ ls hls).2
  · rintro ls t x y dur ⟨⟨hm1, hm2⟩, hl1, hl2⟩
    refine ⟨⟨hm1, hm2⟩, ?_, ?_⟩
    · show (ls.timestamps.append t).items.length =
        (ls.focus_scores.append (max 20 (min 100 x))).items.length
      rw [BoundedDeque.length_append, BoundedDeque.length_append, hm1, hl1]
    · show (ls.focus_scores.append (max 20 (min 100 x))).items.length =
        (ls.productivity_scores.append (max 30 (min 100 y))).items.length
      rw [BoundedDeque.length_append, BoundedDeque.length_append, hm2, hl2]
  · intro ls0 hls0
    rw [start_session_fresh e now he] at hls0
    cases hls0
    exact ⟨⟨rfl, rfl⟩, rfl, rfl⟩

/-- C8 witness: the freshly started concrete session has its three
capacity-300 buffers aligned (all empty). -/
theorem c8_buffer_alignment_witness :
    engineIdleExample.is_tracking = false ∧
    freshSessionExample.timestamps.items.length =
      freshSessionExample.focus_scores.items.length ∧
    freshSessionExample.focus_scores.items.length =
      freshSessionExample.productivity_scores.items.length :=
  ⟨rfl, c8_buffer_alignment engineIdleExample 0 [] freshSessionExample rfl rfl⟩

/-- A row of the `sessions` SQLite table created by `init_database`
(focuspulse/database.py lines 39-66).  `timestamp` and `application` are
`NOT NULL`; every other column is nullable and embedded as `Option`.
Timestamps are embedded as integer instants (seconds); `REAL` columns as
`ℚ`; the stored `BOOLEAN` as its SQLite integer form. -/
structure SessionRow where
  id : ℤ
  timestamp : ℤ
  application : String
  window_title : Option String
  duration_seconds : Option ℤ
  category : Option String
  subcategory : Option String
  focus_score : Option ℚ
  productivity_score : Option ℚ
  distraction_score : Option ℚ
  typing_events : Option ℤ
  mouse_events : Option ℤ
  clicks : Option ℤ
  scrolls : Option ℤ
  app_switches : Option ℤ
  idle_time : Option ℚ
  active_time : Option ℚ
  peak_activity_period : Option String
  energy_level : Option ℚ
  context_switches : Option ℤ
  memory_usage_mb : Option ℚ
  cpu_usage_percent : Option ℚ
  screen_time_quality : Option String
  break_compliance : Option ℤ
  deriving DecidableEq

/-- Modelled from the spec: the `AdvancedFocusSession` record returned by
`get_sessions`.  Its dataclass body is missing from the sources —
`focuspulse/models.py` leaves the class as `pass` with the comment
`Copy the full class definition from app.py`, and `app.py` does not define
it either — so its fields follow spec section 3 (`FocusSession`) and the
keyword arguments `get_sessions` passes to its constructor. -/
structure AdvancedFocusSession where
  id : ℤ
  timestamp : ℤ
  application : String
  window_title : String
  duration_seconds : ℤ
  category : String
  subcategory : String
  focus_score : ℚ
  productivity_score : ℚ
  distraction_score : ℚ
  typing_events : ℤ
  mouse_events : ℤ
  clicks : ℤ
  scrolls : ℤ
  app_switches : ℤ
  idle_time : ℚ
  active_time : ℚ
  peak_activity_period : String
  energy_level : ℚ
  context_switches : ℤ
  memory_usage_mb : ℚ
  cpu_usage_percent : ℚ
  screen_time_quality : String
  break_compliance : Bool
  deriving DecidableEq

/-- Embeds Python's `value or default` for a nullable text column: `None`
and the empty string (both falsy) are replaced by the default. -/
def pyOrStr (v : Option String) (d : String) : String :=
  match v with
  | none => d
  | some s => if s = "" then d else s

/-- Embeds `value or default` for a nullable integer column: `None` and
`0` are replaced by the default. -/
def pyOrInt (v : Option ℤ) (d : ℤ) : ℤ :=
  match v with
  | none => d
  | some n => if n = 0 then d else n

/-- Embeds `value or default` for a nullable numeric (`REAL`) column:
`None` and `0.0` are replaced by the default. -/
def pyOrRat (v : Option ℚ) (d : ℚ) : ℚ :=
  match v with
  | none => d
  | some q => if q = 0 then d else q

/-- Embeds `bool(row[23]) if row[23] is not None else False`. -/
def boolOrFalse (v : Option ℤ) : Bool :=
  match v with
  | none => false
  | some n => n != 0

/-- Embeds the `AdvancedFocusSession(...)` construction inside
`get_sessions` (focuspulse/database.py lines 115-140), including every
`or`-substituted default. -/
def rowToSession (row : SessionRow) : AdvancedFocusSession :=
  { id := row.id
    timestamp := row.timestamp
    application := row.application
    window_title := pyOrStr row.window_title ""
    duration_seconds := pyOrInt row.duration_seconds 0
    category := pyOrStr row.category "Uncategorized"
    subcategory := pyOrStr row.subcategory "Unknown"
    focus_score := pyOrRat row.focus_score 50
    productivity_score := pyOrRat row.productivity_score 50
    distraction_score := pyOrRat row.distraction_score 50
    typing_events := pyOrInt row.typing_events 0
    mouse_events := pyOrInt row.mouse_events 0
    clicks := pyOrInt row.clicks 0
    scrolls := pyOrInt row.scrolls 0
    app_switches := pyOrInt row.app_switches 0
    idle_time := pyOrRat row.idle_time 0
    active_time := pyOrRat row.active_time 0
    peak_activity_period := pyOrStr row.peak_activity_period ""
    energy_level := pyOrRat row.energy_level 5
    context_switches := pyOrInt row.context_switches 0
    memory_usage_mb := pyOrRat row.memory_usage_mb 0
    cpu_usage_percent := pyOrRat row.cpu_usage_percent 0
    screen_time_quality := pyOrStr row.screen_time_quality "good"
    break_compliance := boolOrFalse row.break_compliance }

/-- Demo row 1: timestamp "2025-08-24T09:00:00", encoded as seconds from
the origin 2025-08-23T00:00:00. -/
def demo_session_1 : SessionRow :=
  { id := 1, timestamp := 118800, application := "vscode.exe"
    window_title := some "Python Development - FocusPulse Masterpiece"
    duration_seconds := some 4200
    category := some "Development", subcategory := some "Coding"
    focus_score := some 96, productivity_score := some 98
    distraction_score := some 4
    typing_events := some 220, mouse_events := some 380
    clicks := some 110, scrolls := some 30, app_switches := some 1
    idle_time := some 180, active_time := some 4020
    peak_activity_period := some "morning", energy_level := some 9.8
    context_switches := some 1, memory_usage_mb := some 320
    cpu_usage_percent := some 18
    screen_time_quality := some "exceptional", break_compliance := some 1 }

/-- Demo row 2: timestamp "2025-08-24T11:15:00". -/
def demo_session_2 : SessionRow :=
  { id := 2, timestamp := 126900, application := "figma.exe"
    window_title := some "UI/UX Design - Masterpiece Interface"
    duration_seconds := some 3600
    category := some "Design", subcategory := some "UI/UX"
    focus_score := some 94, productivity_score := some 96
    distraction_score := some 6
    typing_events := some 180, mouse_events := some 320
    clicks := some 85, scrolls := some 20, app_switches := some 1
    idle_time := some 200, active_time := some 3400
    peak_activity_period := some "morning", energy_level := some 9.5
    context_switches := some 1, memory_usage_mb := some 280
    cpu_usage_percent := some 22
    screen_time_quality := some "exceptional", break_compliance := some 1 }

/-- Demo row 3: timestamp "2025-08-24T14:30:00". -/
def demo_session_3 : SessionRow :=
  { id := 3, timestamp := 138600, application := "chrome.exe"
    window_title := some "Research - Best Design Practices"
    duration_seconds := some 2100
    category := some "Research", subcategory := some "Web"
    focus_score := some 88, productivity_score := some 90
    distraction_score := some 12
    typing_events := some 120, mouse_events := some 240
    clicks := some 95, scrolls := some 35, app_switches := some 3
    idle_time := some 120, active_time := some 1980
    peak_activity_period := some "afternoon", energy_level := some 8.8
    context_switches := some 2, memory_usage_mb := some 380
    cpu_usage_percent := some 30
    screen_time_quality := some "excellent", break_compliance := some 1 }

/-- Demo row 4: timestamp "2025-08-24T16:45:00". -/
def demo_session_4 : SessionRow :=
  { id := 4, timestamp := 146700, application := "notion.so"
    window_title := some "Documentation - Technical Specs"
    duration_seconds := some 2700
    category := some "Productivity", subcategory := some "Writing"
    focus_score := some 91, productivity_score := some 93
    distraction_score := some 9
    typing_events := some 160, mouse_events := some 220
    clicks := some 60, scrolls := some 25, app_switches := some 1
    idle_time := some 180, active_time := some 2520
    peak_activity_period := some "afternoon", energy_level := some 9.1
    context_switches := some 1, memory_usage_mb := some 340
    cpu_usage_percent := some 25
    screen_time_quality := some "exceptional", break_compliance := some 1 }

/-- Demo row 5: timestamp "2025-08-23T10:00:00". -/
def demo_session_5 : SessionRow :=
  { id := 5, timestamp := 36000, application := "photoshop.exe"
    window_title := some "Creative Design - Brand Assets"
    duration_seconds := some 3900
    category := some "Design", subcategory := some "Graphics"
    focus_score := some 93, productivity_score := some 91
    distraction_score := some 8
    typing_events := some 200, mouse_events := some 350
    clicks := some 90, scrolls := some 35, app_switches := some 2
    idle_time := some 240, active_time := some 3660
    peak_activity_period := some "morning", energy_level := some 9.2
    context_switches := some 1, memory_usage_mb := some 450
    cpu_usage_percent := some 35
    screen_time_quality := some "exceptional", break_compliance := some 1 }

/-- Embeds `_insert_masterpiece_data`: the five seeded demo rows, with
sequential autoincrement ids. -/
def demo_sessions : List SessionRow :=
  [demo_session_1, demo_session_2, demo_session_3, demo_session_4, demo_session_5]

/-- Embeds `init_database` (focuspulse/database.py lines 33-72) as a
transformer of the stored table: `DROP TABLE IF EXISTS sessions` discards
whatever was stored, the schema is recreated, and the five demo rows are
seeded.  The `except` arm (I/O failure) is outside the embedding. -/
def init_database (_prev : List SessionRow) : List SessionRow :=
  demo_sessions

/-- The `ORDER BY timestamp DESC` comparison. -/
def newestFirst (a b : SessionRow) : Prop :=
  b.timestamp ≤ a.timestamp

instance : DecidableRel newestFirst :=
  fun a b => inferInstanceAs (Decidable (b.timestamp ≤ a.timestamp))

instance : IsTotal SessionRow newestFirst :=
  ⟨fun a b => le_total b.timestamp a.timestamp⟩

instance : IsTrans SessionRow newestFirst :=
  ⟨fun _ _ _ h1 h2 => le_trans h2 h1⟩

/-- Embeds `get_sessions` (focuspulse/database.py lines 104-146): compute
the cutoff `now - timedelta(days=days)` (embedded as `days * 86400`
seconds), select the rows with `timestamp >= cutoff` ordered newest first,
and convert each row with the `or`-substituted defaults.  The `except` arm
(sqlite failure, returning `[]`) is outside the embedding. -/
def get_sessions (table : List SessionRow) (now : ℤ) (days : ℕ) :
    List AdvancedFocusSession :=
  let cutoff_date : ℤ := now - (days : ℤ) * 86400
  ((table.filter (fun r => cutoff_date ≤ r.timestamp)).insertionSort
    newestFirst).map rowToSession

/-- C9: every construction of the database manager drops any previously
stored sessions and reseeds exactly the five demo records — among them the
one with application `vscode.exe`, duration 4200 seconds and focus score
96 — independently of the previous table contents. -/
theorem c9_destructive_reseed (prev : List SessionRow) :
    init_database prev = demo_sessions ∧
    (init_database prev).length = 5 ∧
    ∃ r ∈ init_database prev, r.application = "vscode.exe" ∧
      r.duration_seconds = some 4200 ∧ r.focus_score = some 96 :=
  ⟨rfl, rfl, demo_session_1, List.mem_cons_self _ _, rfl, rfl, rfl⟩

/-- C5: over any stored table and clock, every record returned by
`get_sessions` has `timestamp ≥ now − days·86400`; the returned sequence
is ordered newest first by timestamp; and the records returned for
`days = 2` are a subset of those returned for `days = 100`. -/
theorem c5_query_cutoff_order_subset (table : List SessionRow) (now : ℤ) :
    (∀ (days : ℕ), ∀ s ∈ get_sessions table now days,
      now - (days : ℤ) * 86400 ≤ s.timestamp) ∧
    (∀ (days : ℕ), (get_sessions table now days).Pairwise
      (fun a b => b.timestamp ≤ a.timestamp)) ∧
    (∀ s ∈ get_sessions table now 2, s ∈ get_sessions table now 100) := by
  refine ⟨?_, ?_, ?_⟩
  · intro days s hs
    simp only [get_sessions] at hs
    rcases List.mem_map.1 hs with ⟨r, hr, rfl⟩
    rw [List.mem_insertionSort] at hr
    have hp := (List.mem_filter.1 hr).2
    rw [decide_eq_true_eq] at hp
    exact hp
  · intro days
    simp only [get_sessions]
    refine List.Pairwise.map rowToSession ?_
      (List.sorted_insertionSort newestFirst _)
    intro a b hab
    exact hab
  · intro s hs
    simp only [get_sessions] at hs ⊢
    rcases List.mem_map.1 hs with ⟨r, hr, rfl⟩
    rw [List.mem_insertionSort] at hr
    rcases List.mem_filter.1 hr with ⟨hrt, hp⟩
    rw [decide_eq_true_eq] at hp
    refine List.mem_map.2 ⟨r, ?_, rfl⟩
    rw [List.mem_insertionSort]
    refine List.mem_filter.2 ⟨hrt, ?_⟩
    rw [decide_eq_true_eq]
    omega

/-- A stored row with a `NULL` window title, a zero focus score and other
falsy column values, used to exercise the default substitution. -/
def rowZeroExample : SessionRow :=
  { id := 7, timestamp := 0, application := "testapp.exe"
    window_title := some ""
    duration_seconds := none
    category := some "", subcategory := none
    focus_score := some 0, productivity_score := none
    distraction_score := none
    typing_events := none, mouse_events := some 0
    clicks := none, scrolls := none, app_switches := none
    idle_time := none, active_time := some 0
    peak_activity_period := none, energy_level := none
    context_switches := none, memory_usage_mb := none
    cpu_usage_percent := none
    screen_time_quality := none, break_compliance := none }

/-- C5 witness: on a concrete one-row table with clock 0, the returned
record respects the 7-day cutoff and the `days = 2` result is contained in
the `days = 100` result. -/
theorem c5_query_cutoff_order_subset_witness :
    ((0 : ℤ) - ((7 : ℕ) : ℤ) * 86400 ≤ (rowToSession rowZeroExample).timestamp) ∧
    rowToSession rowZeroExample ∈ get_sessions [rowZeroExample] 0 100 :=
  ⟨(c5_query_cutoff_order_subset [rowZeroExample] 0).1 7 _ (by decide),
   (c5_query_cutoff_order_subset [rowZeroExample] 0).2.2 _ (by decide)⟩

theorem pyOrStr_falsy (v : Option String) (d : String)
    (h : v = none ∨ v = some "") : pyOrStr v d = d := by
  rcases h with h | h <;> subst h <;> simp [pyOrStr]

theorem pyOrInt_falsy (v : Option ℤ) (d : ℤ)
    (h : v = none ∨ v = some 0) : pyOrInt v d = d := by
  rcases h with h | h <;> subst h <;> simp [pyOrInt]

theorem pyOrRat_falsy (v : Option ℚ) (d : ℚ)
    (h : v = none ∨ v = some 0) : pyOrRat v d = d := by
  rcases h with h | h <;> subst h <;> simp [pyOrRat]

theorem boolOrFalse_none (v : Option ℤ) (h : v = none) : boolOrFalse v = false := by
  subst h; rfl

/-- C10: in every record returned by `get_sessions`, a stored column that
is `NULL` — and, because the substitution uses Python's `or`, also one
equal to `0`, `0.0` or the empty string — is replaced by its fixed
default: window title `""`, category `"Uncategorized"`, subcategory
`"Unknown"`, the three scores `50.0`, all interaction counters `0`,
idle/active time `0.0`, energy level `5.0`, screen-time quality `"good"`,
break compliance `false`; every returned record is the substitution image
of a stored row, and in particular a concrete row stored with focus score
`0` is returned with focus score `50`. -/
theorem c10_query_null_defaults :
    (∀ row : SessionRow,
      ((row.window_title = none ∨ row.window_title = some "") →
        (rowToSession row).window_title = "") ∧
      ((row.category = none ∨ row.category = some "") →
        (rowToSession row).category = "Uncategorized") ∧
      ((row.subcategory = none ∨ row.subcategory = some "") →
        (rowToSession row).subcategory = "Unknown") ∧
      ((row.focus_score = none ∨ row.focus_score = some 0) →
        (rowToSession row).focus_score = 50) ∧
      ((row.productivity_score = none ∨ row.productivity_score = some 0) →
        (rowToSession row).productivity_score = 50) ∧
      ((row.distraction_score = none ∨ row.distraction_score = some 0) →
        (rowToSession row).distraction_score = 50) ∧
      ((row.typing_events = none ∨ row.typing_events = some 0) →
        (rowToSession row).typing_events = 0) ∧
      ((row.mouse_events = none ∨ row.mouse_events = some 0) →
        (rowToSession row).mouse_events = 0) ∧
      ((row.clicks = none ∨ row.clicks = some 0) →
        (rowToSession row).clicks = 0) ∧
      ((row.scrolls = none ∨ row.scrolls = some 0) →
        (rowToSession row).scrolls = 0) ∧
      ((row.app_switches = none ∨ row.app_switches = some 0) →
        (rowToSession row).app_switches = 0) ∧
      ((row.context_switches = none ∨ row.context_switches = some 0) →
        (rowToSession row).context_switches = 0) ∧
      ((row.idle_time = none ∨ row.idle_time = some 0) →
        (rowToSession row).idle_time = 0) ∧
      ((row.active_time = none ∨ row.active_time = some 0) →
        (rowToSession row).active_time = 0) ∧
      ((row.energy_level = none ∨ row.energy_level = some 0) →
        (rowToSession row).energy_level = 5) ∧
      ((row.screen_time_quality = none ∨ row.screen_time_quality = some "") →
        (rowToSession row).screen_time_quality = "good") ∧
      (row.break_compliance = none →
        (rowToSession row).break_compliance = false)) ∧
    (∀ (table : List SessionRow) (now : ℤ) (days : ℕ)
      (s : AdvancedFocusSession), s ∈ get_sessions table now days →
      ∃ r ∈ table, s = rowToSession r) ∧
    get_sessions [rowZeroExample] 0 7 = [rowToSession rowZeroExample] ∧
    (rowToSession rowZeroExample).focus_score = 50 := by
  refine ⟨?_, ?_, ?_, ?_⟩
  · intro row
    exact ⟨fun h => pyOrStr_falsy _ _ h, fun h => pyOrStr_falsy _ _ h,
      fun h => pyOrStr_falsy _ _ h, fun h => pyOrRat_falsy _ _ h,
      fun h => pyOrRat_falsy _ _ h, fun h => pyOrRat_falsy _ _ h,
      fun h => pyOrInt_falsy _ _ h, fun h => pyOrInt_falsy _ _ h,
      fun h => pyOrInt_falsy _ _ h, fun h => pyOrInt_falsy _ _ h,
      fun h => pyOrInt_falsy _ _ h, fun h => pyOrInt_falsy _ _ h,
      fun h => pyOrRat_falsy _ _ h, fun h => pyOrRat_falsy _ _ h,
      fun h => pyOrRat_falsy _ _ h, fun h => pyOrStr_falsy _ _ h,
      fun h => boolOrFalse_none _ h⟩
  · intro table now days s hs
    simp only [get_sessions] at hs
    rcases List.mem_map.1 hs with ⟨r, hr, rfl⟩
    rw [List.mem_insertionSort] at hr
    exact ⟨r, (List.mem_filter.1 hr).1, rfl⟩
  · decide
  · decide

/-- C10 witness: the concrete falsy-valued stored row comes back with the
documented defaults. -/
theorem c10_query_null_defaults_witness :
    (rowToSession rowZeroExample).window_title = "" ∧
    (rowToSession rowZeroExample).category = "Uncategorized" ∧
    (rowToSession rowZeroExample).subcategory = "Unknown" ∧
    (rowToSession rowZeroExample).focus_score = 50 ∧
    (rowToSession rowZeroExample).break_compliance = false := by
  have h := c10_query_null_defaults.1 rowZeroExample
  exact ⟨h.1 (Or.inr rfl), h.2.1 (Or.inr rfl), h.2.2.1 (Or.inl rfl),
    h.2.2.2.1 (Or.inr rfl),
    h.2.2.2.2.2.2.2.2.2.2.2.2.2.2.2.2 rfl⟩

/-- Program counter of the sampling-loop thread, one point per statement
of `_tracking_loop` (focuspulse/tracker.py lines 71-94): the `while`
condition, the `if self.live_session` guard, the local sample computation
(lines 74-84), the four session mutations (lines 86-89), the counter-bump
block (lines 91-93, one atomic block), the `time.sleep(1)` call, and the
exit point (loop left, or `break` after a logged error). -/
inductive LoopPC where
  | whileCheck
  | guardCheck
  | compute
  | writeDuration
  | appendFocus
  | appendProd
  | appendTs
  | bumpCheck
  | sleep
  | exited
  deriving DecidableEq

/-- Program counter of a thread executing `stop_tracking` (lines 101-113):
the `if not self.is_tracking` check, `self.is_tracking = False`, the
summary block (lines 106-109), `self.live_session = None`, the final log
line, and the return point. -/
inductive StopPC where
  | checkTracking
  | clearFlag
  | summarize
  | clearSession
  | logStopped
  | returned
  deriving DecidableEq

/-- Ghost events recording which kind of shared mutation a loop statement
performed: a session scalar write (line 86), a buffer append (lines
87-89), or a counter bump (lines 92-93). -/
inductive MicroEvent where
  | sessionWrite
  | bufferAppend
  | counterBump
  deriving DecidableEq

/-- Local state of the sampling-loop thread: its program counter, the
locals computed at lines 74-84, and the pending per-iteration
environments (clock readings and random draws). -/
structure LoopThread where
  pc : LoopPC
  current_time : ℝ
  elapsed : ℝ
  focus_score : ℝ
  productivity_score : ℝ
  typing_delta : ℕ
  mouse_delta : ℕ
  inputs : List LoopInput

/-- A two-thread configuration: the shared tracker object, the loop
thread, and the stop thread's program counter. -/
structure MicroConfig where
  shared : MasterpieceActivityTracker
  loopTh : LoopThread
  stopTh : StopPC

/-- The loop thread raising on a `None` dereference of `live_session`: the
`except` clause logs the error and the loop breaks. -/
def microRaise (c : MicroConfig) : MicroConfig :=
  { c with
    shared := { c.shared with log := c.shared.log ++ ["Tracking error: NoneType"] }
    loopTh := { c.loopTh with pc := LoopPC.exited } }

/-- One statement of the sampling-loop thread.  Every statement that
touches the session re-reads `self.live_session` from the shared state, as
the source does; statement granularity is the unit of atomicity. -/
noncomputable def microLoopStep (c : MicroConfig) : MicroConfig × List MicroEvent :=
  match c.loopTh.pc with
  | LoopPC.whileCheck =>
    if c.shared.is_tracking then
      ({ c with loopTh := { c.loopTh with pc := LoopPC.guardCheck } }, [])
    else
      ({ c with loopTh := { c.loopTh with pc := LoopPC.exited } }, [])
  | LoopPC.guardCheck =>
    match c.shared.live_session with
    | some _ => ({ c with loopTh := { c.loopTh with pc := LoopPC.compute } }, [])
    | none => ({ c with loopTh := { c.loopTh with pc := LoopPC.sleep } }, [])
  | LoopPC.compute =>
    match c.loopTh.inputs with
    | [] => ({ c with loopTh := { c.loopTh with pc := LoopPC.exited } }, [])
    | i :: rest =>
      match c.shared.live_session with
      | none => (microRaise c, [])
      | some ls =>
        let elapsed := i.current_time - ls.start_time
        ({ c with loopTh := { c.loopTh with
            pc := LoopPC.writeDuration
            current_time := i.current_time
            elapsed := elapsed
            focus_score := max 20 (min 100 (85 + 10 * Real.sin (elapsed / 60) + i.noise))
            productivity_score :=
              max 30 (min 100 (88 + 8 * Real.cos (elapsed / 45) + i.prod_noise))
            typing_delta := i.typing_delta
            mouse_delta := i.mouse_delta
            inputs := rest } }, [])
  | LoopPC.writeDuration =>
    match c.shared.live_session with
    | none => (microRaise c, [])
    | some ls =>
      ({ c with
          shared := { c.shared with
            live_session := some { ls with duration_seconds := ⌊c.loopTh.elapsed⌋ } }
          loopTh := { c.loopTh with pc := LoopPC.appendFocus } },
        [MicroEvent.sessionWrite])
  | LoopPC.appendFocus =>
    match c.shared.live_session with
    | none => (microRaise c, [])
    | some ls =>
      ({ c with
          shared := { c.shared with
            live_session :=
              some { ls with focus_scores := ls.focus_scores.append c.loopTh.focus_score } }
          loopTh := { c.loopTh with pc := LoopPC.appendProd } },
        [MicroEvent.bufferAppend])
  | LoopPC.appendProd =>
    match c.shared.live_session with
    | none => (microRaise c, [])
    | some ls =>
      ({ c with
          shared := { c.shared with
            live_session := some { ls with
              productivity_scores :=
                ls.productivity_scores.append c.loopTh.productivity_score } }
          loopTh := { c.loopTh with pc := LoopPC.appendTs } },
        [MicroEvent.bufferAppend])
  | LoopPC.appendTs =>
    match c.shared.live_session with
    | none => (microRaise c, [])
    | some ls =>
      ({ c with
          shared := { c.shared with
            live_session := some { ls with timestamps := ls.timestamps.append c.loopTh.current_time } }
          loopTh := { c.loopTh with pc := LoopPC.bumpCheck } },
        [MicroEvent.bufferAppend])
  | LoopPC.bumpCheck =>
    if c.loopTh.elapsed - 10 * (⌊c.loopTh.elapsed / 10⌋ : ℝ) < 1 then
      ({ c with
          shared := { c.shared with
            typing_events := c.shared.typing_events + c.loopTh.typing_delta
            mouse_events := c.shared.mouse_events + c.loopTh.mouse_delta }
          loopTh := { c.loopTh with pc := LoopPC.sleep } },
        [MicroEvent.counterBump])
    else
      ({ c with loopTh := { c.loopTh with pc := LoopPC.sleep } }, [])
  | LoopPC.sleep =>
    ({ c with loopTh := { c.loopTh with pc := LoopPC.whileCheck } }, [])
  | LoopPC.exited => (c, [])

/-- One statement of a thread executing `stop_tracking`. -/
def microStopStep (c : MicroConfig) : MicroConfig :=
  match c.stopTh with
  | StopPC.checkTracking =>
    if c.shared.is_tracking then { c with stopTh := StopPC.clearFlag }
    else { c with stopTh := StopPC.returned }
  | StopPC.clearFlag =>
    { c with
      shared := { c.shared with is_tracking := false }
      stopTh := StopPC.summarize }
  | StopPC.summarize =>
    match c.shared.live_session with
    | some ls =>
      if ls.duration_seconds > 10 then
        { c with
          shared := { c.shared with log := c.shared.log ++ ["Session completed"] }
          stopTh := StopPC.clearSession }
      else { c with stopTh := StopPC.clearSession }
    | none => { c with stopTh := StopPC.clearSession }
  | StopPC.clearSession =>
    { c with
      shared := { c.shared with live_session := none }
      stopTh := StopPC.logStopped }
  | StopPC.logStopped =>
    { c with
      shared := { c.shared with log := c.shared.log ++ ["Stopped tracking session"] }
      stopTh := StopPC.returned }
  | StopPC.returned => c

/-- One scheduler step: `true` runs the loop thread, `false` the stop
thread. -/
noncomputable def microStep (c : MicroConfig) (who : Bool) :
    MicroConfig × List MicroEvent :=
  if who then microLoopStep c else (microStopStep c, [])

/-- Run a schedule, collecting the ghost mutation events. -/
noncomputable def runMicro : MicroConfig → List Bool → MicroConfig × List MicroEvent
  | c, [] => (c, [])
  | c, w :: rest =>
    ((runMicro (microStep c w).1 rest).1,
      (microStep c w).2 ++ (runMicro (microStep c w).1 rest).2)

theorem microLoopStep_idle (c : MicroConfig)
    (h1 : c.shared.is_tracking = false) (h2 : c.shared.live_session = none) :
    (microLoopStep c).1.shared.live_session = none ∧
    (microLoopStep c).1.shared.is_tracking = false ∧
    (microLoopStep c).1.stopTh = c.stopTh ∧
    (microLoopStep c).2.count MicroEvent.sessionWrite = 0 ∧
    (microLoopStep c).2.count MicroEvent.bufferAppend = 0 ∧
    (microLoopStep c).2.count MicroEvent.counterBump +
      (if (microLoopStep c).1.loopTh.pc = LoopPC.bumpCheck then 1 else 0) ≤
      (if c.loopTh.pc = LoopPC.bumpCheck then 1 else 0) := by
  cases hpc : c.loopTh.pc
  case whileCheck => simp [microLoopStep, hpc, h1, h2]
  case guardCheck => simp [microLoopStep, hpc, h1, h2]
  case compute =>
    cases hin : c.loopTh.inputs with
    | nil => simp [microLoopStep, hpc, h1, h2, hin]
    | cons i rest => simp [microLoopStep, hpc, h1, h2, hin, microRaise]
  case writeDuration => simp [microLoopStep, hpc, h1, h2, microRaise]
  case appendFocus => simp [microLoopStep, hpc, h1, h2, microRaise]
  case appendProd => simp [microLoopStep, hpc, h1, h2, microRaise]
  case appendTs => simp [microLoopStep, hpc, h1, h2, microRaise]
  case bumpCheck =>
    by_cases hc : c.loopTh.elapsed - 10 * (⌊c.loopTh.elapsed / 10⌋ : ℝ) < 1 <;>
      simp [microLoopStep, hpc, h1, h2, hc]
  case sleep => simp [microLoopStep, hpc, h1, h2]
  case exited => simp [microLoopStep, hpc, h1, h2]

theorem microLoopRun_idle (n : ℕ) : ∀ (c : MicroConfig),
    c.shared.is_tracking = false → c.shared.live_session = none →
    (runMicro c (List.replicate n true)).1.shared.live_session = none ∧
    (runMicro c (List.replicate n true)).1.shared.is_tracking = false ∧
    (runMicro c (List.replicate n true)).1.stopTh = c.stopTh ∧
    (runMicro c (List.replicate n true)).2.count MicroEvent.sessionWrite = 0 ∧
    (runMicro c (List.replicate n true)).2.count MicroEvent.bufferAppend = 0 ∧
    (runMicro c (List.replicate n true)).2.count MicroEvent.counterBump ≤
      (if c.loopTh.pc = LoopPC.bumpCheck then 1 else 0) := by
  induction n with
  | zero =>
    intro c h1 h2
    simp [runMicro, h1, h2]
  | succ n ih =>
    intro c h1 h2
    obtain ⟨s1, s2, s3, s4, s5, s6⟩ := microLoopStep_idle c h1 h2
    obtain ⟨r1, r2, r3, r4, r5, r6⟩ := ih (microLoopStep c).1 s2 s1
    have hms : microStep c true = microLoopStep c := rfl
    rw [List.replicate_succ]
    simp only [runMicro, hms]
    refine ⟨r1, r2, r3.trans s3, ?_, ?_, ?_⟩
    · rw [List.count_append, s4, r4]
    · rw [List.count_append, s5, r5]
    · rw [List.count_append]
      omega

/-- C7 (amended): from any configuration in which `stop_tracking` has
returned — its thread at `returned`, the tracking flag cleared and the
live session released — any further run of the sampling-loop thread never
writes a session scalar and never appends to a session buffer (each such
statement re-reads `live_session`, finds `None`, raises and exits the
loop), `get_live_session_data` keeps returning the `Idle` indicator
`none`, and at most one in-flight counter-bump block can still execute. -/
theorem c7_stop_no_late_buffer_mutation (c : MicroConfig) (n : ℕ)
    (hstop : c.stopTh = StopPC.returned)
    (hflag : c.shared.is_tracking = false)
    (hsess : c.shared.live_session = none) :
    (runMicro c (List.replicate n true)).1.shared.live_session = none ∧
    get_live_session_data (runMicro c (List.replicate n true)).1.shared = none ∧
    (runMicro c (List.replicate n true)).1.stopTh = StopPC.returned ∧
    (runMicro c (List.replicate n true)).2.count MicroEvent.sessionWrite = 0 ∧
    (runMicro c (List.replicate n true)).2.count MicroEvent.bufferAppend = 0 ∧
    (runMicro c (List.replicate n true)).2.count MicroEvent.counterBump ≤ 1 := by
  obtain ⟨r1, r2, r3, r4, r5, r6⟩ := microLoopRun_idle n c hflag hsess
  refine ⟨r1, r1, r3.trans hstop, r4, r5, ?_⟩
  refine r6.trans ?_
  split <;> omega

/-- A configuration in which `stop_tracking` has completed while the loop
thread is between its buffer appends and its counter-bump block. -/
noncomputable def c7StoppedConfig : MicroConfig :=
  { shared :=
      { is_tracking := false
        live_session := none
        session_start_time := some 0
        typing_events := 0
        mouse_events := 0
        app_switches := 0
        log := [] }
    loopTh :=
      { pc := LoopPC.bumpCheck
        current_time := 0
        elapsed := 0
        focus_score := 85
        productivity_score := 88
        typing_delta := 5
        mouse_delta := 2
        inputs := [] }
    stopTh := StopPC.returned }

/-- C7 witness: three further loop steps after a completed stop leave the
session released, write no session data, append to no buffer, and bump the
counters at most once. -/
theorem c7_stop_no_late_buffer_mutation_witness :
    (runMicro c7StoppedConfig (List.replicate 3 true)).1.shared.live_session = none ∧
    get_live_session_data (runMicro c7StoppedConfig (List.replicate 3 true)).1.shared = none ∧
    (runMicro c7StoppedConfig (List.replicate 3 true)).1.stopTh = StopPC.returned ∧
    (runMicro c7StoppedConfig (List.replicate 3 true)).2.count MicroEvent.sessionWrite = 0 ∧
    (runMicro c7StoppedConfig (List.replicate 3 true)).2.count MicroEvent.bufferAppend = 0 ∧
    (runMicro c7StoppedConfig (List.replicate 3 true)).2.count MicroEvent.counterBump ≤ 1 :=
  c7_stop_no_late_buffer_mutation c7StoppedConfig 3 rfl rfl rfl

/-- The initial two-thread configuration of the counterexample trace: a
freshly started tracking engine, the loop thread at the `while` check with
one pending iteration environment, the stop thread about to be called. -/
noncomputable def c7StartConfig : MicroConfig :=
  { shared := (start_tracking engineIdleExample 0).1
    loopTh :=
      { pc := LoopPC.whileCheck
        current_time := 0
        elapsed := 0
        focus_score := 0
        productivity_score := 0
        typing_delta := 0
        mouse_delta := 0
        inputs := [{ current_time := 0
                     noise := 0
                     prod_noise := 0
                     typing_delta := 5
                     mouse_delta := 2
                     err := none }] }
    stopTh := StopPC.checkTracking }

/-- The counterexample schedule: the loop thread runs through its buffer
appends (seven statements), then the stop thread runs `stop_tracking` to
completion (five statements). -/
def c7Sched : List Bool :=
  [true, true, true, true, true, true, true, false, false, false, false, false]

/-- C7 counterexample: after the concrete schedule `c7Sched` the `Stop()`
call has returned, yet one further statement of the in-flight loop
iteration still increments the session's typing counter (0 to 5), i.e. the
sampling loop does mutate the session counters after `Stop()` returns. -/
theorem c7_counterexample :
    (runMicro c7StartConfig c7Sched).1.stopTh = StopPC.returned ∧
    (runMicro c7StartConfig c7Sched).1.shared.live_session = none ∧
    (runMicro c7StartConfig c7Sched).1.shared.typing_events = 0 ∧
    (runMicro (runMicro c7StartConfig c7Sched).1 [true]).1.shared.typing_events = 5 ∧
    (runMicro (runMicro c7StartConfig c7Sched).1 [true]).2.count
      MicroEvent.counterBump = 1 := by
  refine ⟨?_, ?_, ?_, ?_, ?_⟩ <;>
    norm_num [c7StartConfig, c7Sched, runMicro, microStep, microLoopStep, microStopStep,
      start_tracking, engineIdleExample, sub_zero, zero_div, Int.floor_zero]
